import Mathlib

/-!
Shallow embedding of `hastexo/provider.py` (stack lifecycle drivers for
OpenStack Heat, Google Cloud Deployment Manager, and AWS EC2/SSM), together
with theorems settling the specification claims about it.

Backend I/O is modelled by explicit oracle parameters: each operation takes
the sequence of results the cloud API would return (fetch streams, call
results) and returns the value the Python function would return, the
exception it would raise, and observable effect counts (sleeps performed,
API calls issued).
-/

/- ### Python value model -/

/-- A Python value as it occurs in stack output dictionaries: a string, a
list of strings, or None. -/
inductive PyVal
  | pstr (s : String)
  | plist (l : List String)
  | pnone
  deriving DecidableEq

/-- Python truthiness for the values of `PyVal`. -/
def PyVal.truthy : PyVal → Bool
  | .pstr s => !s.isEmpty
  | .plist l => !l.isEmpty
  | .pnone => false

/-- Truthiness of `d.get(k)`: `None` (absent) is falsy. -/
def pyTruthy : Option PyVal → Bool
  | none => false
  | some v => v.truthy

/-- Whether `needle` occurs at the start of `hay` (on character lists). -/
def charsStartWith : List Char → List Char → Bool
  | [], _ => true
  | _ :: _, [] => false
  | c :: cs, d :: ds => c == d && charsStartWith cs ds

/-- Whether `needle` occurs contiguously anywhere in `hay`. -/
def charsContain (hay needle : List Char) : Bool :=
  match hay with
  | [] => charsStartWith needle []
  | _ :: rest => charsStartWith needle hay || charsContain rest needle

/-- Python `needle in hay` substring containment on strings. -/
def pyIn (needle hay : String) : Bool :=
  charsContain hay.toList needle.toList

/-- Python dict assignment `d[k] = v`: overwrite an existing key in place,
otherwise append. -/
def dictInsert (d : List (String × PyVal)) (k : String) (v : PyVal) :
    List (String × PyVal) :=
  if (d.lookup k).isSome then
    d.map (fun p => if p.1 = k then (k, v) else p)
  else
    d ++ [(k, v)]

/- ### Status constants

Modelled from the spec: the status-string constants imported from
`hastexo/common.py`, which is not under `src/`; the spec lists the common
status vocabulary as IN_PROGRESS, CREATE_COMPLETE, DELETE_IN_PROGRESS,
DELETE_COMPLETE, SUSPEND_IN_PROGRESS, SUSPEND_COMPLETE, RESUME_IN_PROGRESS,
RESUME_COMPLETE and FAILED-suffixed variants. -/

def IN_PROGRESS : String := "IN_PROGRESS"

def FAILED : String := "FAILED"

def CREATE_COMPLETE : String := "CREATE_COMPLETE"

def DELETE_COMPLETE : String := "DELETE_COMPLETE"

def DELETE_IN_PROGRESS : String := "DELETE_IN_PROGRESS"

def SUSPEND_IN_PROGRESS : String := "SUSPEND_IN_PROGRESS"

def SUSPEND_COMPLETE : String := "SUSPEND_COMPLETE"

def RESUME_IN_PROGRESS : String := "RESUME_IN_PROGRESS"

def RESUME_COMPLETE : String := "RESUME_COMPLETE"

/-- Modelled from the spec: membership in the common status vocabulary,
including the FAILED-suffixed variants (any status containing FAILED). -/
def specInCommonVocab (s : String) : Bool :=
  [IN_PROGRESS, CREATE_COMPLETE, DELETE_IN_PROGRESS, DELETE_COMPLETE,
   SUSPEND_IN_PROGRESS, SUSPEND_COMPLETE, RESUME_IN_PROGRESS,
   RESUME_COMPLETE].contains s || pyIn FAILED s

/- ### Errors and results -/

/-- The exception surface of `provider.py`: `ProviderException msg`. -/
inductive PyError
  | providerException (msg : String)
  deriving DecidableEq

/-- The `{"status": ..., "outputs": ...}` dictionary returned by
`get_stack`, `create_stack` and `resume_stack`. -/
structure StackResult where
  status : String
  outputs : List (String × PyVal)
  deriving DecidableEq

/-- The `{"status": ...}` dictionary returned by `suspend_stack` and
`delete_stack`. -/
structure StatusOnly where
  status : String
  deriving DecidableEq

/- ### AWS driver (`AwsProvider`) -/

/-- The part of an EC2 instance that `AwsProvider` reads: the numeric state
code and the private IP address. -/
structure AwsInstance where
  stateCode : Int
  privateIp : String
  deriving DecidableEq

/-- Backend state an `AwsProvider.get_stack` call observes: the result of
`_get_instance(name)` (None when no non-deleted instance carries the derived
key name) and the result of the SSM `get_parameter` call (error = the call
raised). -/
structure AwsEnv where
  inst : Option AwsInstance
  ssmParam : Except Unit String

/-- `AwsProvider._get_deployment_status`: map the EC2 numeric state code to
the common vocabulary, raising on any other code. -/
def AwsProvider.get_deployment_status (aws_state : Int) : Except PyError String :=
  if aws_state = 0 then .ok IN_PROGRESS
  else if aws_state = 16 then .ok CREATE_COMPLETE
  else if aws_state = 32 then .ok ("DELETE_" ++ IN_PROGRESS)
  else if aws_state = 48 then .ok DELETE_COMPLETE
  else if aws_state = 64 then .ok SUSPEND_IN_PROGRESS
  else if aws_state = 80 then .ok SUSPEND_COMPLETE
  else .error (.providerException ("Unknown AWS state: " ++ toString aws_state))

/-- `AwsProvider._get_instance_outputs`: empty when the instance is absent
or the SSM parameter fetch raises; otherwise the four-key outputs dict. -/
def AwsProvider.get_instance_outputs (env : AwsEnv) : List (String × PyVal) :=
  match env.inst with
  | none => []
  | some i =>
    match env.ssmParam with
    | .error _ => []
    | .ok v =>
      [("public_ip", .pstr i.privateIp),
       ("private_key", .pstr v),
       ("password", .pstr ""),
       ("reboot_on_resume", .pnone)]

/-- `AwsProvider.get_stack`: DELETE_COMPLETE with empty outputs when no
instance is found, else the mapped state code plus the instance outputs. -/
def AwsProvider.get_stack (env : AwsEnv) : Except PyError StackResult :=
  match env.inst with
  | none => .ok { status := DELETE_COMPLETE, outputs := [] }
  | some i =>
    match AwsProvider.get_deployment_status i.stateCode with
    | .error e => .error e
    | .ok st => .ok { status := st, outputs := AwsProvider.get_instance_outputs env }

/-- A tag attached to an SSM parameter, as read by `get_stacks`. -/
structure AwsTag where
  tagName : String
  tagValue : String
  deriving DecidableEq

/-- One step of the inner tag scan of `AwsProvider.get_stacks`. The
purpose-tag branch evaluates the bare expression `found_purpose_tag`
without assigning it, so the flag retains its value; the `Stack` branch
records the stack name. -/
def AwsProvider.scan_tag_step (acc : Bool × Option String) (tag : AwsTag) :
    Bool × Option String :=
  if tag.tagName = "Purpose" ∧ tag.tagValue = "Hastexo" then
    acc
  else if tag.tagName = "Stack" then
    (acc.1, some tag.tagValue)
  else
    acc

/-- The inner tag scan of `AwsProvider.get_stacks`: fold the steps starting
from `found_purpose_tag = False`, `stack_name = None`. -/
def AwsProvider.scan_tags (tags : List AwsTag) : Bool × Option String :=
  tags.foldl AwsProvider.scan_tag_step (false, none)

/-- Python truthiness of the scanned `stack_name` (None or empty is falsy). -/
def AwsProvider.stack_name_truthy : Option String → Bool
  | none => false
  | some s => !s.isEmpty

/-- One SSM parameter of `AwsProvider.get_stacks`: append a stack entry
when the purpose tag was found and a stack name is set. `statusOf` models
the nested `get_stack(stack_name)["status"]` call. -/
def AwsProvider.get_stacks_step (statusOf : String → String)
    (found : List (String × String)) (tags : List AwsTag) :
    List (String × String) :=
  let r := AwsProvider.scan_tags tags
  if r.1 && AwsProvider.stack_name_truthy r.2 then
    found ++ [(r.2.getD "", statusOf (r.2.getD ""))]
  else
    found

/-- `AwsProvider.get_stacks`: fold `get_stacks_step` over the parameters. -/
def AwsProvider.get_stacks (params : List (List AwsTag))
    (statusOf : String → String) : List (String × String) :=
  params.foldl (AwsProvider.get_stacks_step statusOf) []

/-- The backend API calls issued by `AwsProvider.create_stack`. -/
inductive AwsCall
  | importKeyPair
  | putParameter
  | runInstances
  deriving DecidableEq

/-- The bounded IP-wait loop at the end of `AwsProvider.create_stack`:
`count` starts at 0 and the loop raises once `count == 6`; `remaining`
is `6 - count`. Each round calls `get_stack`; a truthy `public_ip` output
returns that result; otherwise the loop sleeps 5 seconds. Returns
(number of `get_stack` attempts, list of sleep durations, result). -/
def AwsProvider.ip_wait (fetch : Nat → Except PyError StackResult) :
    Nat → Nat → Nat × List Nat × Except PyError StackResult
  | _, 0 =>
    (0, [], .error (.providerException
      "Could not determine private IP of instance within reasonable time"))
  | idx, remaining + 1 =>
    match fetch idx with
    | .error e => (1, [], .error e)
    | .ok res =>
      if pyTruthy (res.outputs.lookup "public_ip") then
        (1, [], .ok res)
      else
        let r := AwsProvider.ip_wait fetch (idx + 1) remaining
        (r.1 + 1, 5 :: r.2.1, r.2.2)

/-- `AwsProvider.create_stack`: parse the template YAML, check the four
required properties in order (a missing or falsy one raises before any
backend call), then import the key pair, store the SSM parameter, launch
the instance (any API failure raises), and run the bounded IP wait.
Returns the result plus the list of backend API calls issued. -/
def AwsProvider.create_stack (templateYaml : Except Unit (List (String × String)))
    (callResult : AwsCall → Except Unit Unit)
    (fetch : Nat → Except PyError StackResult) :
    Except PyError StackResult × List AwsCall :=
  match templateYaml with
  | .error _ => (.error (.providerException "Invalid template YAML."), [])
  | .ok env =>
    match ["ami_id", "instance_type", "security_group_id",
           "subnet_id"].find? (fun p => ((env.lookup p).getD "").isEmpty) with
    | some p =>
      (.error (.providerException ("Missing required property: " ++ p)), [])
    | none =>
      match callResult .importKeyPair with
      | .error _ =>
        (.error (.providerException "API error"), [.importKeyPair])
      | .ok _ =>
        match callResult .putParameter with
        | .error _ =>
          (.error (.providerException "API error"),
           [.importKeyPair, .putParameter])
        | .ok _ =>
          match callResult .runInstances with
          | .error _ =>
            (.error (.providerException "API error"),
             [.importKeyPair, .putParameter, .runInstances])
          | .ok _ =>
            ((AwsProvider.ip_wait fetch 0 6).2.2,
             [.importKeyPair, .putParameter, .runInstances])

/-- The fire-and-forget cleanup calls of `AwsProvider.delete_stack`. -/
inductive AwsDeleteCall
  | createTags
  | terminate
  | deleteParameter
  | deleteKeyPair
  deriving DecidableEq

/-- `AwsProvider.delete_stack`: tag and terminate the instance when one is
found, then delete the SSM parameter and the key pair; always returns
DELETE_COMPLETE without polling. -/
def AwsProvider.delete_stack (inst : Option AwsInstance) (wait : Bool) :
    StatusOnly × List AwsDeleteCall :=
  match inst with
  | some _ =>
    (⟨DELETE_COMPLETE⟩, [.createTags, .terminate, .deleteParameter, .deleteKeyPair])
  | none =>
    (⟨DELETE_COMPLETE⟩, [.deleteParameter, .deleteKeyPair])

/-- `AwsProvider.suspend_stack`: returns SUSPEND_COMPLETE unconditionally;
the code after this `return` statement is unreachable. -/
def AwsProvider.suspend_stack (name : String) (wait : Bool) : StatusOnly :=
  ⟨SUSPEND_COMPLETE⟩

/-- `AwsProvider.resume_stack`: returns `get_stack(name)`; the code after
this `return` statement is unreachable. -/
def AwsProvider.resume_stack (env : AwsEnv) : Except PyError StackResult :=
  AwsProvider.get_stack env

/- ### OpenStack driver (`OpenstackProvider`) -/

/-- One entry of a Heat stack's `outputs` attribute. -/
structure HeatOutput where
  output_key : String
  output_value : PyVal
  deriving DecidableEq

/-- The result of one `heat_c.stacks.get` call: HTTPNotFound, another
HTTP-layer error, or the stack with its native status and outputs. -/
inductive HeatFetch
  | notFound
  | httpError (msg : String)
  | stack (status : String) (outputs : List HeatOutput)
  deriving DecidableEq

/-- The result of a Heat action call (`actions.suspend`, `actions.resume`,
`stacks.delete`, `stacks.create`): success, or an HTTP-layer error. -/
inductive HeatAction
  | ok
  | httpError (msg : String)
  deriving DecidableEq

/-- `OpenstackProvider._get_stack_outputs`: fold the stack's output entries
into a dict. -/
def OpenstackProvider.get_stack_outputs (outs : List HeatOutput) :
    List (String × PyVal) :=
  outs.foldl (fun acc o => dictInsert acc o.output_key o.output_value) []

/-- `OpenstackProvider.get_stack`: not-found yields DELETE_COMPLETE with
empty outputs; other HTTP errors raise; otherwise the native `stack_status`
is returned unchanged together with the stack outputs. -/
def OpenstackProvider.get_stack (fetch : HeatFetch) : Except PyError StackResult :=
  match fetch with
  | .notFound => .ok { status := DELETE_COMPLETE, outputs := [] }
  | .httpError m => .error (.providerException m)
  | .stack st outs =>
    .ok { status := st, outputs := OpenstackProvider.get_stack_outputs outs }

/-- Exit of the `create_stack` polling loop: once the status no longer
contains IN_PROGRESS, a status containing FAILED raises, else the status
and the last fetched stack's outputs are returned. -/
def OpenstackProvider.create_exit (status : String) (lastOuts : List HeatOutput) :
    Except PyError (String × List HeatOutput) :=
  if pyIn FAILED status then
    .error (.providerException "Failure creating OpenStack Heat stack.")
  else
    .ok (status, lastOuts)

/-- The `create_stack` polling loop: while the status contains IN_PROGRESS,
sleep then re-fetch; a vanished stack raises. Returns (sleep count,
post-loop result), or `none` when the fetch stream is exhausted with the
loop still running. -/
def OpenstackProvider.create_poll (status : String) (lastOuts : List HeatOutput) :
    List HeatFetch → Option (Nat × Except PyError (String × List HeatOutput))
  | [] =>
    if pyIn IN_PROGRESS status then none
    else some (0, OpenstackProvider.create_exit status lastOuts)
  | f :: rest =>
    if pyIn IN_PROGRESS status then
      match f with
      | HeatFetch.notFound =>
        some (1, .error (.providerException
          "OpenStack Heat stack disappeared during creation."))
      | HeatFetch.httpError m =>
        some (1, .error (.providerException m))
      | HeatFetch.stack st outs =>
        match OpenstackProvider.create_poll st outs rest with
        | none => none
        | some (n, r) => some (n + 1, r)
    else some (0, OpenstackProvider.create_exit status lastOuts)

/-- Exit of the `resume_stack` polling loop: a status containing FAILED
raises, else the status and the last fetched stack's outputs are
returned. -/
def OpenstackProvider.resume_exit (status : String) (lastOuts : List HeatOutput) :
    Except PyError (String × List HeatOutput) :=
  if pyIn FAILED status then
    .error (.providerException "Failure resuming OpenStack Heat stack")
  else
    .ok (status, lastOuts)

/-- The `resume_stack` polling loop: while the status neither contains
FAILED nor equals RESUME_COMPLETE, sleep then re-fetch; a vanished stack
raises. -/
def OpenstackProvider.resume_poll (status : String) (lastOuts : List HeatOutput) :
    List HeatFetch → Option (Nat × Except PyError (String × List HeatOutput))
  | [] =>
    if !pyIn FAILED status && status != RESUME_COMPLETE then none
    else some (0, OpenstackProvider.resume_exit status lastOuts)
  | f :: rest =>
    if !pyIn FAILED status && status != RESUME_COMPLETE then
      match f with
      | HeatFetch.notFound =>
        some (1, .error (.providerException
          "OpenStack Heat stack disappeared during resume."))
      | HeatFetch.httpError m =>
        some (1, .error (.providerException m))
      | HeatFetch.stack st outs =>
        match OpenstackProvider.resume_poll st outs rest with
        | none => none
        | some (n, r) => some (n + 1, r)
    else some (0, OpenstackProvider.resume_exit status lastOuts)

/-- Exit of the `suspend_stack` polling loop: a status containing FAILED
raises, else the status is returned. -/
def OpenstackProvider.suspend_exit (status : String) : Except PyError String :=
  if pyIn FAILED status then
    .error (.providerException "Failure suspending OpenStack Heat stack.")
  else
    .ok status

/-- The `suspend_stack` polling loop: while the status neither contains
FAILED nor equals DELETE_COMPLETE nor SUSPEND_COMPLETE, sleep then
re-fetch; a vanished stack sets the status to DELETE_COMPLETE. -/
def OpenstackProvider.suspend_poll (status : String) :
    List HeatFetch → Option (Nat × Except PyError String)
  | [] =>
    if !pyIn FAILED status && status != DELETE_COMPLETE &&
        status != SUSPEND_COMPLETE then none
    else some (0, OpenstackProvider.suspend_exit status)
  | f :: rest =>
    if !pyIn FAILED status && status != DELETE_COMPLETE &&
        status != SUSPEND_COMPLETE then
      match f with
      | HeatFetch.notFound =>
        match OpenstackProvider.suspend_poll DELETE_COMPLETE rest with
        | none => none
        | some (n, r) => some (n + 1, r)
      | HeatFetch.httpError m =>
        some (1, .error (.providerException m))
      | HeatFetch.stack st _ =>
        match OpenstackProvider.suspend_poll st rest with
        | none => none
        | some (n, r) => some (n + 1, r)
    else some (0, OpenstackProvider.suspend_exit status)

/-- Exit of the `delete_stack` polling loop: a status containing FAILED
raises, else the status is returned. -/
def OpenstackProvider.delete_exit (status : String) : Except PyError String :=
  if pyIn FAILED status then
    .error (.providerException "Failure deleting OpenStack Heat stack.")
  else
    .ok status

/-- The `delete_stack` polling loop: while the status neither contains
FAILED nor equals DELETE_COMPLETE, sleep then re-fetch; a vanished stack
sets the status to DELETE_COMPLETE. -/
def OpenstackProvider.delete_poll (status : String) :
    List HeatFetch → Option (Nat × Except PyError String)
  | [] =>
    if !pyIn FAILED status && status != DELETE_COMPLETE then none
    else some (0, OpenstackProvider.delete_exit status)
  | f :: rest =>
    if !pyIn FAILED status && status != DELETE_COMPLETE then
      match f with
      | HeatFetch.notFound =>
        match OpenstackProvider.delete_poll DELETE_COMPLETE rest with
        | none => none
        | some (n, r) => some (n + 1, r)
      | HeatFetch.httpError m =>
        some (1, .error (.providerException m))
      | HeatFetch.stack st _ =>
        match OpenstackProvider.delete_poll st rest with
        | none => none
        | some (n, r) => some (n + 1, r)
    else some (0, OpenstackProvider.delete_exit status)

/-- The reboot sequence at the end of `resume_stack`: issue a HARD reboot
for each listed server in order; a Nova ClientException aborts the
sequence with a ProviderException. Returns the calls issued (server name,
reboot type) and the raised error, if any. -/
def OpenstackProvider.reboot_calls (reboot : String → Except String Unit) :
    List String → List (String × String) × Option PyError
  | [] => ([], none)
  | s :: rest =>
    match reboot s with
    | .error m => ([(s, "HARD")], some (.providerException m))
    | .ok _ =>
      let r := OpenstackProvider.reboot_calls reboot rest
      ((s, "HARD") :: r.1, r.2)

/-- `OpenstackProvider.resume_stack`: invoke the Heat resume action (an
HTTP error raises), poll from RESUME_IN_PROGRESS, then, when the final
outputs hold a `reboot_on_resume` list, hard-reboot each listed server in
order. Returns (sleep count, reboot calls issued, result). -/
def OpenstackProvider.resume_stack (action : HeatAction)
    (fetches : List HeatFetch) (reboot : String → Except String Unit) :
    Option (Nat × List (String × String) × Except PyError StackResult) :=
  match action with
  | .httpError m => some (0, [], .error (.providerException m))
  | .ok =>
    match OpenstackProvider.resume_poll RESUME_IN_PROGRESS [] fetches with
    | none => none
    | some (n, .error e) => some (n, [], .error e)
    | some (n, .ok (st, houts)) =>
      let outs := OpenstackProvider.get_stack_outputs houts
      match outs.lookup "reboot_on_resume" with
      | some (PyVal.plist l) =>
        let r := OpenstackProvider.reboot_calls reboot l
        match r.2 with
        | some e => some (n, r.1, .error e)
        | none => some (n, r.1, .ok { status := st, outputs := outs })
      | _ => some (n, [], .ok { status := st, outputs := outs })

/-- `OpenstackProvider.suspend_stack`: invoke the Heat suspend action (an
HTTP error raises); when `wait` is set, poll from SUSPEND_IN_PROGRESS,
else return SUSPEND_IN_PROGRESS at once. -/
def OpenstackProvider.suspend_stack (action : HeatAction) (wait : Bool)
    (fetches : List HeatFetch) : Option (Nat × Except PyError StatusOnly) :=
  match action with
  | .httpError m => some (0, .error (.providerException m))
  | .ok =>
    if wait then
      match OpenstackProvider.suspend_poll SUSPEND_IN_PROGRESS fetches with
      | none => none
      | some (n, .error e) => some (n, .error e)
      | some (n, .ok st) => some (n, .ok ⟨st⟩)
    else
      some (0, .ok ⟨SUSPEND_IN_PROGRESS⟩)

/-- `OpenstackProvider.delete_stack`: delete the Nova key pair (a NotFound
is ignored), invoke the Heat stack delete (an HTTP error raises); when
`wait` is set, poll from DELETE_IN_PROGRESS, else return DELETE_IN_PROGRESS
at once. `kpDelete` models the key-pair delete outcome (error = NotFound). -/
def OpenstackProvider.delete_stack (kpDelete : Except Unit Unit)
    (action : HeatAction) (wait : Bool) (fetches : List HeatFetch) :
    Option (Nat × Except PyError StatusOnly) :=
  match action with
  | .httpError m => some (0, .error (.providerException m))
  | .ok =>
    if wait then
      match OpenstackProvider.delete_poll DELETE_IN_PROGRESS fetches with
      | none => none
      | some (n, .error e) => some (n, .error e)
      | some (n, .ok st) => some (n, .ok ⟨st⟩)
    else
      some (0, .ok ⟨DELETE_IN_PROGRESS⟩)

/- ### GCloud driver (`GcloudProvider`) -/

/-- The `operation` object embedded in a Deployment Manager deployment. -/
structure GcloudOperation where
  operationType : String
  opStatus : String
  deriving DecidableEq

/-- A Deployment Manager deployment as `GcloudProvider` reads it:
`operation` (absent raises), plus the manifest link taken from
`update.manifest` when present, else from the top-level `manifest`. -/
structure GcloudDeployment where
  deploymentName : String
  operation : Option GcloudOperation
  updateManifest : Option String
  manifest : Option String
  deriving DecidableEq

/-- The result of the `deployments().get` call in `get_stack`: a 404, a
non-404 HTTP error, another API error, or the deployment. -/
inductive GcloudFetch
  | http404
  | httpError (msg : String)
  | apiError (msg : String)
  | deployment (d : GcloudDeployment)
  deriving DecidableEq

/-- The `layout` of a manifest as `_get_deployment_outputs` consumes it:
absent from the response, unusable (YAML error, non-dict, or no `outputs`
key), or a list of output entries each with optional `name` and
`finalValue` fields. -/
inductive GcloudLayout
  | absent
  | unusable
  | outputsList (l : List (Option String × Option PyVal))
  deriving DecidableEq

/-- Backend state a `GcloudProvider.get_stack` call observes beyond the
deployment fetch: the live server statuses of `_get_deployment_servers`
(which can itself raise), the manifest fetch (error = GcloudApiError
message), and the base64 decoding step applied to a `private_key` output
(external library behaviour). -/
structure GcloudEnv where
  fetch : GcloudFetch
  servers : Except PyError (List String)
  manifestGet : Except String GcloudLayout
  b64 : PyVal → PyVal

/-- The manifest URL selection in `_get_deployment_outputs`:
`update.manifest` when present, else the top-level `manifest`, else the
outputs are empty. -/
def GcloudProvider.manifest_url (d : GcloudDeployment) : Option String :=
  match d.updateManifest with
  | some m => some m
  | none => d.manifest

/-- `GcloudProvider._get_deployment_outputs`: resolve the manifest link,
fetch the manifest (an API error raises), then read the layout's outputs,
applying the base64 decode to `private_key` values; entries without both
`name` and `finalValue` are skipped. -/
def GcloudProvider.get_deployment_outputs (env : GcloudEnv)
    (d : GcloudDeployment) : Except PyError (List (String × PyVal)) :=
  match GcloudProvider.manifest_url d with
  | none => .ok []
  | some _ =>
    match env.manifestGet with
    | .error m => .error (.providerException m)
    | .ok .absent => .ok []
    | .ok .unusable => .ok []
    | .ok (.outputsList l) =>
      .ok (l.foldl
        (fun acc entry =>
          match entry with
          | (some nm, some v) =>
            dictInsert acc nm (if nm = "private_key" then env.b64 v else v)
          | _ => acc)
        [])

/-- The operation-type half of `_get_deployment_status`: insert, update and
delete map to CREATE, UPDATE and DELETE; anything else raises. -/
def GcloudProvider.optype_map (t : String) : Except PyError String :=
  if t = "insert" then .ok "CREATE"
  else if t = "update" then .ok "UPDATE"
  else if t = "delete" then .ok "DELETE"
  else .error (.providerException ("Unknown operation type " ++ t))

/-- The operation-status half of `_get_deployment_status`: DONE maps to
COMPLETE, PENDING and RUNNING to IN_PROGRESS; anything else raises. -/
def GcloudProvider.opstatus_map (s : String) : Except PyError String :=
  if s = "DONE" then .ok "COMPLETE"
  else if s = "PENDING" then .ok IN_PROGRESS
  else if s = "RUNNING" then .ok IN_PROGRESS
  else .error (.providerException ("Unknown operation status " ++ s))

/-- `GcloudProvider._get_deployment_status`: a missing operation raises;
otherwise combine the mapped type and status; when that yields
CREATE_COMPLETE, refine by the live server statuses (STOPPING means
suspending, STAGING means resuming, all TERMINATED means suspended). -/
def GcloudProvider.get_deployment_status (servers : Except PyError (List String))
    (d : GcloudDeployment) : Except PyError String :=
  match d.operation with
  | none => .error (.providerException "Operation not found.")
  | some op =>
    match GcloudProvider.optype_map op.operationType with
    | .error e => .error e
    | .ok ot =>
      match GcloudProvider.opstatus_map op.opStatus with
      | .error e => .error e
      | .ok os =>
        let status := ot ++ "_" ++ os
        if status = CREATE_COMPLETE then
          match servers with
          | .error e => .error e
          | .ok ss =>
            if ss.isEmpty then .ok status
            else if ss.any (fun x => x == "STOPPING") then .ok SUSPEND_IN_PROGRESS
            else if ss.any (fun x => x == "STAGING") then .ok RESUME_IN_PROGRESS
            else if ss.all (fun x => x == "TERMINATED") then .ok SUSPEND_COMPLETE
            else .ok status
        else .ok status

/-- `GcloudProvider.get_stack`: a 404 yields DELETE_COMPLETE with empty
outputs; other errors raise; otherwise derive the status and outputs of
the fetched deployment. -/
def GcloudProvider.get_stack (env : GcloudEnv) : Except PyError StackResult :=
  match env.fetch with
  | .http404 => .ok { status := DELETE_COMPLETE, outputs := [] }
  | .httpError m => .error (.providerException m)
  | .apiError m => .error (.providerException m)
  | .deployment d =>
    match GcloudProvider.get_deployment_status env.servers d with
    | .error e => .error e
    | .ok st =>
      match GcloudProvider.get_deployment_outputs env d with
      | .error e => .error e
      | .ok outs => .ok { status := st, outputs := outs }

/-- A compute instance of a deployment, as suspend/resume read it. -/
structure GcServer where
  serverName : String
  zone : String
  liveStatus : String
  deriving DecidableEq

/-- The stop sequence at the head of `GcloudProvider.suspend_stack`: stop
each RUNNING server (an API error raises); a server that is neither
RUNNING, STOPPING nor TERMINATED raises. Returns the names of the servers
a stop call was issued for. -/
def GcloudProvider.stop_servers (stopCall : String → Except String Unit) :
    List GcServer → Except PyError (List String)
  | [] => .ok []
  | s :: rest =>
    if s.liveStatus = "RUNNING" then
      match stopCall s.serverName with
      | .error m => .error (.providerException m)
      | .ok _ =>
        match GcloudProvider.stop_servers stopCall rest with
        | .error e => .error e
        | .ok calls => .ok (s.serverName :: calls)
    else if s.liveStatus ≠ "STOPPING" ∧ s.liveStatus ≠ "TERMINATED" then
      .error (.providerException
        ("Cannot not stop Google Compute machine " ++ s.serverName))
    else
      GcloudProvider.stop_servers stopCall rest

/-- The `suspend_stack` wait loop: each round sleeps, re-fetches the
deployment's servers (an error raises), and finishes with SUSPEND_COMPLETE
once every server is TERMINATED. -/
def GcloudProvider.suspend_poll :
    List (Except PyError (List GcServer)) → Option (Nat × Except PyError String)
  | [] => none
  | f :: rest =>
    match f with
    | .error e => some (1, .error e)
    | .ok ss =>
      if ss.all (fun s => s.liveStatus == "TERMINATED") then
        some (1, .ok SUSPEND_COMPLETE)
      else
        match GcloudProvider.suspend_poll rest with
        | none => none
        | some (n, r) => some (n + 1, r)

/-- `GcloudProvider.suspend_stack`: enumerate the deployment's servers (an
error raises), stop the RUNNING ones, then, when `wait` is set, poll until
all servers are TERMINATED. -/
def GcloudProvider.suspend_stack (servers0 : Except PyError (List GcServer))
    (stopCall : String → Except String Unit) (wait : Bool)
    (pollServers : List (Except PyError (List GcServer))) :
    Option (Nat × Except PyError StatusOnly) :=
  match servers0 with
  | .error e => some (0, .error e)
  | .ok ss =>
    match GcloudProvider.stop_servers stopCall ss with
    | .error e => some (0, .error e)
    | .ok _ =>
      if wait then
        match GcloudProvider.suspend_poll pollServers with
        | none => none
        | some (n, .error e) => some (n, .error e)
        | some (n, .ok st) => some (n, .ok ⟨st⟩)
      else
        some (0, .ok ⟨SUSPEND_IN_PROGRESS⟩)

/-- One result of the `operations().get` poll in `delete_stack`: a 404
(treated as completed), a non-404 HTTP error, an API error, or the
operation with its status and, when DONE with an `error` field, the list
of embedded error messages. -/
inductive GcOpFetch
  | http404
  | httpError (msg : String)
  | apiError (msg : String)
  | op (opStatus : String) (errors : Option (List String))
  deriving DecidableEq

/-- The `delete_stack` wait loop: fetch the operation; a 404 completes with
DELETE_COMPLETE; a DONE operation with an `error` field raises its first
embedded message (or a generic one), without one completes; otherwise
sleep and repeat. -/
def GcloudProvider.delete_poll :
    List GcOpFetch → Option (Nat × Except PyError String)
  | [] => none
  | f :: rest =>
    match f with
    | .http404 => some (0, .ok DELETE_COMPLETE)
    | .httpError m => some (0, .error (.providerException m))
    | .apiError m => some (0, .error (.providerException m))
    | .op st errs =>
      if st = "DONE" then
        match errs with
        | some [] => some (0, .error (.providerException "Error in operation."))
        | some (m :: _) => some (0, .error (.providerException m))
        | none => some (0, .ok DELETE_COMPLETE)
      else
        match GcloudProvider.delete_poll rest with
        | none => none
        | some (n, r) => some (n + 1, r)

/-- `GcloudProvider.delete_stack`: submit the delete operation (an API
error raises); when `wait` is set, poll the operation, else return
DELETE_IN_PROGRESS at once. -/
def GcloudProvider.delete_stack (deleteCall : Except String Unit) (wait : Bool)
    (fetches : List GcOpFetch) : Option (Nat × Except PyError StatusOnly) :=
  match deleteCall with
  | .error m => some (0, .error (.providerException m))
  | .ok _ =>
    if wait then
      match GcloudProvider.delete_poll fetches with
      | none => none
      | some (n, .error e) => some (n, .error e)
      | some (n, .ok st) => some (n, .ok ⟨st⟩)
    else
      some (0, .ok ⟨DELETE_IN_PROGRESS⟩)

/- ### Provider facade (`Provider.init`) -/

/-- A value of the configured providers map: a dict (with its string
entries) or any non-dict value (which Python's `isinstance` check, or its
falsiness, rejects either way). -/
inductive ProviderConfigVal
  | pdict (entries : List (String × String))
  | nondict
  deriving DecidableEq

/-- A constructed backend driver, tagged by selected type. -/
inductive Driver
  | openstack (name : String) (entries : List (String × String))
  | gcloud (name : String) (entries : List (String × String))
  | aws (name : String) (entries : List (String × String))
  deriving DecidableEq

/-- `Provider.init`: look the name up in the providers map; only a truthy
dict config proceeds (an empty dict is falsy); the `type` entry selects
the driver, an unset or falsy type defaulting to OpenStack; an
unrecognized type falls through and the function returns None. -/
def Provider.init (providers : List (String × ProviderConfigVal))
    (name : String) : Option Driver :=
  match providers.lookup name with
  | none => none
  | some ProviderConfigVal.nondict => none
  | some (ProviderConfigVal.pdict entries) =>
    if entries.isEmpty then none
    else
      match entries.lookup "type" with
      | none => some (Driver.openstack name entries)
      | some t =>
        if t = "openstack" then some (Driver.openstack name entries)
        else if t.isEmpty then some (Driver.openstack name entries)
        else if t = "gcloud" then some (Driver.gcloud name entries)
        else if t = "aws" then some (Driver.aws name entries)
        else none

/- ### Helper lemmas -/

/-- The purpose-tag flag of the tag scan never changes: the matching branch
is a bare expression, not an assignment. -/
theorem AwsProvider.scan_tag_fold_fst (tags : List AwsTag)
    (acc : Bool × Option String) :
    (tags.foldl AwsProvider.scan_tag_step acc).1 = acc.1 := by
  induction tags generalizing acc with
  | nil => rfl
  | cons t ts ih =>
    rw [List.foldl_cons, ih]
    unfold AwsProvider.scan_tag_step
    split
    · rfl
    · split
      · rfl
      · rfl

/-- The flag component of `scan_tags` is always false. -/
theorem AwsProvider.scan_tags_fst (tags : List AwsTag) :
    (AwsProvider.scan_tags tags).1 = false :=
  AwsProvider.scan_tag_fold_fst tags (false, none)

/- ### Claim theorems -/

/-- Claim C2 (confirmed): for each backend driver, `get_stack` applied to a
name whose backing resource is absent (no EC2 instance, HTTPNotFound from
Heat, 404 from Deployment Manager) returns exactly
`{status: DELETE_COMPLETE, outputs: {}}`. -/
theorem get_stack_missing_returns_delete_complete :
    (∀ ssm, AwsProvider.get_stack ⟨none, ssm⟩ =
      Except.ok { status := DELETE_COMPLETE, outputs := [] })
    ∧ OpenstackProvider.get_stack HeatFetch.notFound =
      Except.ok { status := DELETE_COMPLETE, outputs := [] }
    ∧ (∀ servers manifestGet b64,
      GcloudProvider.get_stack ⟨GcloudFetch.http404, servers, manifestGet, b64⟩ =
        Except.ok { status := DELETE_COMPLETE, outputs := [] }) :=
  ⟨fun _ => rfl, rfl, fun _ _ _ => rfl⟩

/-- Claim C4 (confirmed): `AwsProvider.get_stacks` returns the empty list
for every set of SSM parameters and tags, because the purpose-tag flag is
never set to true (the matching line is a bare expression, not an
assignment). -/
theorem aws_get_stacks_always_empty (params : List (List AwsTag))
    (statusOf : String → String) :
    AwsProvider.get_stacks params statusOf = [] := by
  unfold AwsProvider.get_stacks
  suffices h : ∀ acc : List (String × String),
      params.foldl (AwsProvider.get_stacks_step statusOf) acc = acc from h []
  induction params with
  | nil => intro acc; rfl
  | cons tags ps ih =>
    intro acc
    rw [List.foldl_cons]
    have hstep : AwsProvider.get_stacks_step statusOf acc tags = acc := by
      simp [AwsProvider.get_stacks_step, AwsProvider.scan_tags_fst]
    rw [hstep, ih]

/-- Claim C5 counterexample: an existing OpenStack Heat stack whose
template declares no outputs yields a non-deleted status with empty
outputs, so non-empty outputs do not follow from existence. -/
theorem os_existing_stack_empty_outputs :
    OpenstackProvider.get_stack (HeatFetch.stack CREATE_COMPLETE []) =
      Except.ok { status := CREATE_COMPLETE, outputs := [] }
    ∧ CREATE_COMPLETE ≠ DELETE_COMPLETE :=
  ⟨rfl, by decide⟩

/-- Claim C5 as amended: a missing stack always has empty outputs on every
backend, but the converse fails — an existing stack may also have empty
outputs (a Heat stack without outputs, an AWS instance whose SSM parameter
fetch raises, a GCloud deployment without a manifest link). -/
theorem outputs_empty_facts :
    (∀ ssm, AwsProvider.get_stack ⟨none, ssm⟩ =
      Except.ok { status := DELETE_COMPLETE, outputs := [] })
    ∧ OpenstackProvider.get_stack HeatFetch.notFound =
      Except.ok { status := DELETE_COMPLETE, outputs := [] }
    ∧ (∀ servers manifestGet b64,
      GcloudProvider.get_stack ⟨GcloudFetch.http404, servers, manifestGet, b64⟩ =
        Except.ok { status := DELETE_COMPLETE, outputs := [] })
    ∧ (∀ i, AwsProvider.get_instance_outputs ⟨some i, Except.error ()⟩ = [])
    ∧ (∀ env d, GcloudProvider.manifest_url d = none →
        GcloudProvider.get_deployment_outputs env d = Except.ok []) := by
  refine ⟨fun _ => rfl, rfl, fun _ _ _ => rfl, fun _ => rfl, fun env d h => ?_⟩
  unfold GcloudProvider.get_deployment_outputs
  rw [h]

/-- Claim C5 amended witness: the hypothesis of the manifest-less GCloud
conjunct discharged at a concrete deployment. -/
theorem outputs_empty_facts_witness :
    GcloudProvider.get_deployment_outputs
      ⟨GcloudFetch.http404, Except.ok [], Except.ok GcloudLayout.absent, id⟩
      ⟨"d1", none, none, none⟩ = Except.ok [] :=
  outputs_empty_facts.2.2.2.2
    ⟨GcloudFetch.http404, Except.ok [], Except.ok GcloudLayout.absent, id⟩
    ⟨"d1", none, none, none⟩ rfl

/-- Claim C1 counterexample: `AwsProvider.suspend_stack` returns
SUSPEND_COMPLETE unconditionally, so suspending a stack with no backing
resource does not resolve to DELETE_COMPLETE. -/
theorem aws_suspend_returns_suspend_complete :
    AwsProvider.suspend_stack "gone" true = ⟨SUSPEND_COMPLETE⟩
    ∧ SUSPEND_COMPLETE ≠ DELETE_COMPLETE :=
  ⟨rfl, by decide⟩

/-- Claim C1 as amended: only some paths resolve a missing stack to
DELETE_COMPLETE. AWS `resume_stack` (which returns `get_stack`) and
`delete_stack` do; OpenStack `suspend_stack`/`delete_stack` polling maps a
stack that vanishes during the wait to DELETE_COMPLETE, and the GCloud
delete poll maps a 404 to DELETE_COMPLETE. But AWS `suspend_stack` returns
SUSPEND_COMPLETE, OpenStack `resume_stack` raises when the stack
disappears during the poll, the initial OpenStack action call on a missing
stack surfaces its HTTP error as a ProviderException, and GCloud
suspend/delete raise when the deployment lookup or delete call errors. -/
theorem missing_stack_operation_behavior :
    (∀ name wait, AwsProvider.suspend_stack name wait = ⟨SUSPEND_COMPLETE⟩)
    ∧ (∀ ssm, AwsProvider.resume_stack ⟨none, ssm⟩ =
        Except.ok { status := DELETE_COMPLETE, outputs := [] })
    ∧ AwsProvider.delete_stack none true =
      (⟨DELETE_COMPLETE⟩, [AwsDeleteCall.deleteParameter, AwsDeleteCall.deleteKeyPair])
    ∧ OpenstackProvider.suspend_stack HeatAction.ok true [HeatFetch.notFound] =
      some (1, Except.ok ⟨DELETE_COMPLETE⟩)
    ∧ OpenstackProvider.delete_stack (Except.ok ()) HeatAction.ok true
        [HeatFetch.notFound] = some (1, Except.ok ⟨DELETE_COMPLETE⟩)
    ∧ OpenstackProvider.resume_stack HeatAction.ok [HeatFetch.notFound]
        (fun _ => Except.ok ()) =
      some (1, [], Except.error (PyError.providerException
        "OpenStack Heat stack disappeared during resume."))
    ∧ (∀ m wait fetches, OpenstackProvider.suspend_stack (HeatAction.httpError m)
        wait fetches = some (0, Except.error (PyError.providerException m)))
    ∧ (∀ m kp wait fetches, OpenstackProvider.delete_stack kp
        (HeatAction.httpError m) wait fetches =
        some (0, Except.error (PyError.providerException m)))
    ∧ (∀ m fetches reboot, OpenstackProvider.resume_stack
        (HeatAction.httpError m) fetches reboot =
        some (0, [], Except.error (PyError.providerException m)))
    ∧ (∀ e stopCall wait polls, GcloudProvider.suspend_stack (Except.error e)
        stopCall wait polls = some (0, Except.error e))
    ∧ (∀ m wait fetches, GcloudProvider.delete_stack (Except.error m) wait
        fetches = some (0, Except.error (PyError.providerException m)))
    ∧ GcloudProvider.delete_stack (Except.ok ()) true [GcOpFetch.http404] =
      some (0, Except.ok ⟨DELETE_COMPLETE⟩) := by
  refine ⟨fun _ _ => rfl, fun _ => rfl, rfl, ?_, ?_, rfl, fun _ _ _ => rfl,
    fun _ kp _ _ => ?_, fun _ _ _ => rfl, fun _ _ _ _ => rfl,
    fun _ _ _ => rfl, rfl⟩
  · rfl
  · rfl
  · cases kp <;> rfl

/-- Claim C10 counterexample: a provider whose configuration is present and
is a dict, with its type unset, for which `Provider.init` nevertheless
returns None — because an empty dict is falsy and fails the
`if config and isinstance(config, dict)` guard. -/
theorem provider_init_empty_dict :
    List.lookup "p" [("p", ProviderConfigVal.pdict [])] =
      some (ProviderConfigVal.pdict [])
    ∧ Provider.init [("p", ProviderConfigVal.pdict [])] "p" = none :=
  ⟨rfl, rfl⟩

/-- Claim C10 as amended: `Provider.init` returns None when the name is
absent from the providers map, the configuration is not a dict, the
configuration dict is empty (falsy), or a set, non-empty type is not one
of openstack, gcloud, aws; it constructs a driver only for a non-empty
dict configuration, with an unset or empty type selecting the OpenStack
driver. -/
theorem provider_init_dispatch :
    (∀ providers name, List.lookup name providers = none →
      Provider.init providers name = none)
    ∧ (∀ providers name, List.lookup name providers =
        some ProviderConfigVal.nondict → Provider.init providers name = none)
    ∧ (∀ providers name, List.lookup name providers =
        some (ProviderConfigVal.pdict []) → Provider.init providers name = none)
    ∧ (∀ providers name e es t,
        List.lookup name providers = some (ProviderConfigVal.pdict (e :: es)) →
        List.lookup "type" (e :: es) = some t →
        t ≠ "openstack" → t ≠ "" → t ≠ "gcloud" → t ≠ "aws" →
        Provider.init providers name = none)
    ∧ (∀ providers name e es,
        List.lookup name providers = some (ProviderConfigVal.pdict (e :: es)) →
        List.lookup "type" (e :: es) = none →
        Provider.init providers name = some (Driver.openstack name (e :: es)))
    ∧ (∀ providers name e es,
        List.lookup name providers = some (ProviderConfigVal.pdict (e :: es)) →
        List.lookup "type" (e :: es) = some "openstack" →
        Provider.init providers name = some (Driver.openstack name (e :: es)))
    ∧ (∀ providers name e es,
        List.lookup name providers = some (ProviderConfigVal.pdict (e :: es)) →
        List.lookup "type" (e :: es) = some "" →
        Provider.init providers name = some (Driver.openstack name (e :: es)))
    ∧ (∀ providers name e es,
        List.lookup name providers = some (ProviderConfigVal.pdict (e :: es)) →
        List.lookup "type" (e :: es) = some "gcloud" →
        Provider.init providers name = some (Driver.gcloud name (e :: es)))
    ∧ (∀ providers name e es,
        List.lookup name providers = some (ProviderConfigVal.pdict (e :: es)) →
        List.lookup "type" (e :: es) = some "aws" →
        Provider.init providers name = some (Driver.aws name (e :: es))) := by
  refine ⟨?_, ?_, ?_, ?_, ?_, ?_, ?_, ?_, ?_⟩
  · intro providers name h
    unfold Provider.init
    rw [h]
  · intro providers name h
    unfold Provider.init
    rw [h]
  · intro providers name h
    unfold Provider.init
    rw [h]
    rfl
  · intro providers name e es t h ht h1 h2 h3 h4
    unfold Provider.init
    rw [h]
    simp only [List.isEmpty_cons, ht]
    have h2e : t.isEmpty = false := by
      cases ht2 : t.isEmpty
      · rfl
      · exact absurd ((String.isEmpty_iff t).mp ht2) h2
    simp [h1, h2e, h3, h4]
  · intro providers name e es h ht
    unfold Provider.init
    rw [h]
    simp only [List.isEmpty_cons, ht]
    rfl
  · intro providers name e es h ht
    unfold Provider.init
    rw [h]
    simp only [List.isEmpty_cons, ht]
    rfl
  · intro providers name e es h ht
    unfold Provider.init
    rw [h]
    simp only [List.isEmpty_cons, ht]
    rfl
  · intro providers name e es h ht
    unfold Provider.init
    rw [h]
    simp only [List.isEmpty_cons, ht]
    rfl
  · intro providers name e es h ht
    unfold Provider.init
    rw [h]
    simp only [List.isEmpty_cons, ht]
    rfl

/-- Claim C10 amended witness: the dispatch facts instantiated at concrete
provider maps. -/
theorem provider_init_dispatch_witness :
    Provider.init [] "p" = none
    ∧ Provider.init [("p", ProviderConfigVal.pdict [("type", "bogus")])] "p" = none
    ∧ Provider.init [("p", ProviderConfigVal.pdict [("run", "x")])] "p" =
      some (Driver.openstack "p" [("run", "x")])
    ∧ Provider.init [("p", ProviderConfigVal.pdict [("type", "aws")])] "p" =
      some (Driver.aws "p" [("type", "aws")]) :=
  ⟨provider_init_dispatch.1 [] "p" rfl,
   provider_init_dispatch.2.2.2.1 _ "p" _ [] "bogus" rfl rfl
     (by decide) (by decide) (by decide) (by decide),
   provider_init_dispatch.2.2.2.2.1 _ "p" _ [] rfl rfl,
   provider_init_dispatch.2.2.2.2.2.2.2.2 _ "p" _ [] rfl rfl⟩

/-- Claim C3 counterexample: `OpenstackProvider.get_stack` performs no
normalization — a native Heat status outside the common vocabulary (here
SNAPSHOT_COMPLETE) is passed through unchanged instead of raising. -/
theorem os_get_stack_passthrough :
    OpenstackProvider.get_stack (HeatFetch.stack "SNAPSHOT_COMPLETE" []) =
      Except.ok { status := "SNAPSHOT_COMPLETE", outputs := [] }
    ∧ specInCommonVocab "SNAPSHOT_COMPLETE" = false :=
  ⟨rfl, rfl⟩

/-- Claim C3 as amended: the AWS driver maps its six known instance-state
codes exactly and raises on any other code; the GCloud driver raises on
unknown operation types and statuses; but the OpenStack driver's
`get_stack` returns the native Heat `stack_status` unchanged, with no
vocabulary check at all. -/
theorem status_normalization_behavior :
    (AwsProvider.get_deployment_status 0 = Except.ok IN_PROGRESS
      ∧ AwsProvider.get_deployment_status 16 = Except.ok CREATE_COMPLETE
      ∧ AwsProvider.get_deployment_status 32 = Except.ok ("DELETE_" ++ IN_PROGRESS)
      ∧ AwsProvider.get_deployment_status 48 = Except.ok DELETE_COMPLETE
      ∧ AwsProvider.get_deployment_status 64 = Except.ok SUSPEND_IN_PROGRESS
      ∧ AwsProvider.get_deployment_status 80 = Except.ok SUSPEND_COMPLETE)
    ∧ (∀ c : Int, c ≠ 0 → c ≠ 16 → c ≠ 32 → c ≠ 48 → c ≠ 64 → c ≠ 80 →
        AwsProvider.get_deployment_status c = Except.error
          (PyError.providerException ("Unknown AWS state: " ++ toString c)))
    ∧ (∀ c st, AwsProvider.get_deployment_status c = Except.ok st →
        specInCommonVocab st = true)
    ∧ (∀ t, t ≠ "insert" → t ≠ "update" → t ≠ "delete" →
        GcloudProvider.optype_map t = Except.error
          (PyError.providerException ("Unknown operation type " ++ t)))
    ∧ (∀ s, s ≠ "DONE" → s ≠ "PENDING" → s ≠ "RUNNING" →
        GcloudProvider.opstatus_map s = Except.error
          (PyError.providerException ("Unknown operation status " ++ s)))
    ∧ (∀ st outs, OpenstackProvider.get_stack (HeatFetch.stack st outs) =
        Except.ok { status := st,
                    outputs := OpenstackProvider.get_stack_outputs outs }) := by
  refine ⟨⟨rfl, rfl, rfl, rfl, rfl, rfl⟩, ?_, ?_, ?_, ?_, fun _ _ => rfl⟩
  · intro c h0 h16 h32 h48 h64 h80
    unfold AwsProvider.get_deployment_status
    rw [if_neg h0, if_neg h16, if_neg h32, if_neg h48, if_neg h64, if_neg h80]
  · intro c st h
    unfold AwsProvider.get_deployment_status at h
    split at h
    · cases h; rfl
    · split at h
      · cases h; rfl
      · split at h
        · cases h; rfl
        · split at h
          · cases h; rfl
          · split at h
            · cases h; rfl
            · split at h
              · cases h; rfl
              · cases h
  · intro t h1 h2 h3
    unfold GcloudProvider.optype_map
    rw [if_neg h1, if_neg h2, if_neg h3]
  · intro s h1 h2 h3
    unfold GcloudProvider.opstatus_map
    rw [if_neg h1, if_neg h2, if_neg h3]

/-- Claim C3 amended witness: the normalization facts instantiated at the
unknown AWS code 7, the unknown GCloud operation type `patch` and the
unknown GCloud operation status `CANCELLED`. -/
theorem status_normalization_behavior_witness :
    AwsProvider.get_deployment_status 7 = Except.error
      (PyError.providerException "Unknown AWS state: 7")
    ∧ specInCommonVocab CREATE_COMPLETE = true
    ∧ GcloudProvider.optype_map "patch" = Except.error
      (PyError.providerException "Unknown operation type patch")
    ∧ GcloudProvider.opstatus_map "CANCELLED" = Except.error
      (PyError.providerException "Unknown operation status CANCELLED") :=
  ⟨status_normalization_behavior.2.1 7 (by decide) (by decide) (by decide)
     (by decide) (by decide) (by decide),
   status_normalization_behavior.2.2.1 16 CREATE_COMPLETE rfl,
   status_normalization_behavior.2.2.2.1 "patch" (by decide) (by decide)
     (by decide),
   status_normalization_behavior.2.2.2.2.1 "CANCELLED" (by decide) (by decide)
     (by decide)⟩

/-- Claim C6 (confirmed): `AwsProvider.create_stack` with a parsed template
missing (or holding a falsy value for) one of the required properties
raises the corresponding ProviderException and issues no backend API call
at all — no key-pair import, no SSM put, no instance launch. -/
theorem aws_create_missing_property (env : List (String × String))
    (callResult : AwsCall → Except Unit Unit)
    (fetch : Nat → Except PyError StackResult) (p : String)
    (h : (["ami_id", "instance_type", "security_group_id",
           "subnet_id"].find? (fun q => ((env.lookup q).getD "").isEmpty)) =
      some p) :
    AwsProvider.create_stack (Except.ok env) callResult fetch =
      (Except.error (PyError.providerException
        ("Missing required property: " ++ p)), []) := by
  simp only [AwsProvider.create_stack, h]

/-- Claim C6 witness: an empty template dict is missing `ami_id`, so
creation fails with that message before any backend call. -/
theorem aws_create_missing_property_witness :
    AwsProvider.create_stack (Except.ok []) (fun _ => Except.ok ())
      (fun _ => Except.ok { status := "", outputs := [] }) =
      (Except.error (PyError.providerException
        "Missing required property: ami_id"), []) :=
  aws_create_missing_property [] _ _ "ami_id" rfl

/-- The timeout branch of the IP wait: when every fetch within the bound
comes back without a truthy `public_ip`, the loop makes exactly `rem`
attempts, sleeps 5 seconds after each, and raises the timeout error. -/
theorem AwsProvider.ip_wait_timeout (rem : Nat) :
    ∀ (idx : Nat) (fetch : Nat → Except PyError StackResult),
      (∀ i, i < rem → ∃ r, fetch (idx + i) = Except.ok r ∧
        pyTruthy (r.outputs.lookup "public_ip") = false) →
      AwsProvider.ip_wait fetch idx rem =
        (rem, List.replicate rem 5, Except.error (PyError.providerException
          "Could not determine private IP of instance within reasonable time")) := by
  induction rem with
  | zero => intro idx fetch _; rfl
  | succ n ih =>
    intro idx fetch h
    obtain ⟨r, hr, hip⟩ := h 0 (Nat.succ_pos n)
    rw [Nat.add_zero] at hr
    unfold AwsProvider.ip_wait
    rw [hr]
    simp only [hip]
    rw [ih (idx + 1) fetch
      (fun i hi => by
        obtain ⟨q, hq, hqi⟩ := h (i + 1) (Nat.succ_lt_succ hi)
        exact ⟨q, by rw [← hq]; congr 1; omega, hqi⟩)]
    simp [List.replicate_succ]

/-- The success branch of the IP wait: when the k-th fetch (k within the
bound) is the first with a truthy `public_ip`, the loop makes k+1 attempts,
sleeps k times, and returns that result. -/
theorem AwsProvider.ip_wait_success (k : Nat) :
    ∀ (rem idx : Nat) (fetch : Nat → Except PyError StackResult)
      (r : StackResult), k < rem →
      fetch (idx + k) = Except.ok r →
      pyTruthy (r.outputs.lookup "public_ip") = true →
      (∀ i, i < k → ∃ q, fetch (idx + i) = Except.ok q ∧
        pyTruthy (q.outputs.lookup "public_ip") = false) →
      AwsProvider.ip_wait fetch idx rem =
        (k + 1, List.replicate k 5, Except.ok r) := by
  induction k with
  | zero =>
    intro rem idx fetch r hk hr hip _
    obtain ⟨n, rfl⟩ := Nat.exists_eq_add_of_lt hk
    rw [Nat.add_zero] at hr
    unfold AwsProvider.ip_wait
    rw [Nat.add_comm, hr]
    simp [hip]
  | succ k ih =>
    intro rem idx fetch r hk hr hip h
    obtain ⟨n, rfl⟩ := Nat.exists_eq_add_of_lt hk
    obtain ⟨q, hq, hqi⟩ := h 0 (Nat.succ_pos k)
    rw [Nat.add_zero] at hq
    have : k + 1 + n + 1 = (k + 1 + n) + 1 := rfl
    rw [this]
    unfold AwsProvider.ip_wait
    rw [hq]
    simp only [hqi]
    rw [ih (k + 1 + n) (idx + 1) fetch r (by omega)
      (by rw [← hr]; congr 1; omega) hip
      (fun i hi => by
        obtain ⟨w, hw, hwi⟩ := h (i + 1) (Nat.succ_lt_succ hi)
        exact ⟨w, by rw [← hw]; congr 1; omega, hwi⟩)]
    simp [List.replicate_succ]

/-- The attempt count of the IP wait never exceeds the remaining bound. -/
theorem AwsProvider.ip_wait_attempts_le (rem : Nat) :
    ∀ (idx : Nat) (fetch : Nat → Except PyError StackResult),
      (AwsProvider.ip_wait fetch idx rem).1 ≤ rem := by
  induction rem with
  | zero => intro idx fetch; exact Nat.le_refl 0
  | succ n ih =>
    intro idx fetch
    unfold AwsProvider.ip_wait
    cases hf : fetch idx with
    | error e => exact Nat.succ_le_succ (Nat.zero_le n)
    | ok r =>
      cases hip : pyTruthy (r.outputs.lookup "public_ip") with
      | true => simp [hip]
      | false =>
        simp only [hip]
        exact Nat.succ_le_succ (ih (idx + 1) fetch)

/-- Claim C7 (confirmed): in the IP-assignment wait of
`AwsProvider.create_stack` (modelled by `ip_wait` entered with count 0 and
bound 6), a fetch stream that never reports a truthy `public_ip` makes
exactly 6 polling attempts with a 5-second sleep after each and raises the
timeout ProviderException; a stream whose first truthy `public_ip` appears
at attempt k < 6 returns that `get_stack` result after k+1 attempts; and
the loop always terminates within its attempt bound. -/
theorem aws_ip_wait_bounded_polling :
    (∀ fetch, (∀ i, i < 6 → ∃ r, fetch i = Except.ok r ∧
        pyTruthy (r.outputs.lookup "public_ip") = false) →
      AwsProvider.ip_wait fetch 0 6 =
        (6, [5, 5, 5, 5, 5, 5], Except.error (PyError.providerException
          "Could not determine private IP of instance within reasonable time")))
    ∧ (∀ fetch k r, k < 6 → fetch k = Except.ok r →
        pyTruthy (r.outputs.lookup "public_ip") = true →
        (∀ i, i < k → ∃ q, fetch i = Except.ok q ∧
          pyTruthy (q.outputs.lookup "public_ip") = false) →
        AwsProvider.ip_wait fetch 0 6 = (k + 1, List.replicate k 5, Except.ok r))
    ∧ (∀ fetch idx rem, (AwsProvider.ip_wait fetch idx rem).1 ≤ rem) := by
  refine ⟨?_, ?_, fun fetch idx rem => AwsProvider.ip_wait_attempts_le rem idx fetch⟩
  · intro fetch h
    have := AwsProvider.ip_wait_timeout 6 0 fetch
      (fun i hi => by simpa using h i hi)
    simpa using this
  · intro fetch k r hk hr hip h
    have := AwsProvider.ip_wait_success k 6 0 fetch r hk
      (by simpa using hr) hip (fun i hi => by simpa using h i hi)
    exact this

/-- Claim C7 witness: a stream that always answers with empty outputs times
out after the six attempts and six 5-second sleeps. -/
theorem aws_ip_wait_bounded_polling_witness :
    AwsProvider.ip_wait (fun _ => Except.ok ⟨CREATE_COMPLETE, []⟩) 0 6 =
      (6, [5, 5, 5, 5, 5, 5], Except.error (PyError.providerException
        "Could not determine private IP of instance within reasonable time")) :=
  aws_ip_wait_bounded_polling.1 _
    (fun _ _ => ⟨⟨CREATE_COMPLETE, []⟩, rfl, rfl⟩)

/-- When the loop condition of the resume poll is already false, no fetch
is consumed and the loop exits at once, whatever the stream holds. -/
theorem OpenstackProvider.resume_poll_stop (st : String)
    (outs : List HeatOutput)
    (h : (!pyIn FAILED st && st != RESUME_COMPLETE) = false)
    (fetches : List HeatFetch) :
    OpenstackProvider.resume_poll st outs fetches =
      some (0, OpenstackProvider.resume_exit st outs) := by
  cases fetches with
  | nil => simp [OpenstackProvider.resume_poll, h]
  | cons f rest => simp [OpenstackProvider.resume_poll, h]

/-- When the loop condition of the suspend poll is already false, no fetch
is consumed and the loop exits at once. -/
theorem OpenstackProvider.suspend_poll_stop (st : String)
    (h : (!pyIn FAILED st && st != DELETE_COMPLETE &&
      st != SUSPEND_COMPLETE) = false) (fetches : List HeatFetch) :
    OpenstackProvider.suspend_poll st fetches =
      some (0, OpenstackProvider.suspend_exit st) := by
  cases fetches with
  | nil => simp [OpenstackProvider.suspend_poll, h]
  | cons f rest => simp [OpenstackProvider.suspend_poll, h]

/-- When the loop condition of the delete poll is already false, no fetch
is consumed and the loop exits at once. -/
theorem OpenstackProvider.delete_poll_stop (st : String)
    (h : (!pyIn FAILED st && st != DELETE_COMPLETE) = false)
    (fetches : List HeatFetch) :
    OpenstackProvider.delete_poll st fetches =
      some (0, OpenstackProvider.delete_exit st) := by
  cases fetches with
  | nil => simp [OpenstackProvider.delete_poll, h]
  | cons f rest => simp [OpenstackProvider.delete_poll, h]

/-- When the loop condition of the create poll is already false, no fetch
is consumed and the loop exits at once. -/
theorem OpenstackProvider.create_poll_stop (st : String)
    (outs : List HeatOutput) (h : pyIn IN_PROGRESS st = false)
    (fetches : List HeatFetch) :
    OpenstackProvider.create_poll st outs fetches =
      some (0, OpenstackProvider.create_exit st outs) := by
  cases fetches with
  | nil => simp [OpenstackProvider.create_poll, h]
  | cons f rest => simp [OpenstackProvider.create_poll, h]

/-- Claim C9 counterexample: in the `create_stack` loop the continue
condition is IN_PROGRESS containment, not the absence of FAILED — a
fetched status containing both substrings (here FAILED_IN_PROGRESS) is
followed by a further sleep and, when a later status lacks FAILED, no
exception at all. -/
theorem os_create_poll_failed_keeps_polling :
    pyIn FAILED "FAILED_IN_PROGRESS" = true
    ∧ OpenstackProvider.create_poll "CREATE_IN_PROGRESS" []
        [HeatFetch.stack "FAILED_IN_PROGRESS" [],
         HeatFetch.stack CREATE_COMPLETE []] =
      some (2, Except.ok (CREATE_COMPLETE, [])) :=
  ⟨rfl, rfl⟩

/-- Claim C9 as amended: in the suspend, resume and delete polling loops a
fetched status containing FAILED ends the loop with no further sleep and a
ProviderException. In the create loop the condition is IN_PROGRESS
containment: a fetched FAILED status raises without further sleep only
when it does not also contain IN_PROGRESS (true of every real Heat
status); a status containing both substrings is polled again. -/
theorem os_poll_failed_raises :
    (∀ status outs st fouts rest,
      pyIn FAILED status = false → status ≠ RESUME_COMPLETE →
      pyIn FAILED st = true →
      OpenstackProvider.resume_poll status outs
        (HeatFetch.stack st fouts :: rest) =
        some (1, Except.error (PyError.providerException
          "Failure resuming OpenStack Heat stack")))
    ∧ (∀ status st fouts rest,
      pyIn FAILED status = false → status ≠ DELETE_COMPLETE →
      status ≠ SUSPEND_COMPLETE → pyIn FAILED st = true →
      OpenstackProvider.suspend_poll status
        (HeatFetch.stack st fouts :: rest) =
        some (1, Except.error (PyError.providerException
          "Failure suspending OpenStack Heat stack.")))
    ∧ (∀ status st fouts rest,
      pyIn FAILED status = false → status ≠ DELETE_COMPLETE →
      pyIn FAILED st = true →
      OpenstackProvider.delete_poll status
        (HeatFetch.stack st fouts :: rest) =
        some (1, Except.error (PyError.providerException
          "Failure deleting OpenStack Heat stack.")))
    ∧ (∀ status outs st fouts rest,
      pyIn IN_PROGRESS status = true → pyIn FAILED st = true →
      pyIn IN_PROGRESS st = false →
      OpenstackProvider.create_poll status outs
        (HeatFetch.stack st fouts :: rest) =
        some (1, Except.error (PyError.providerException
          "Failure creating OpenStack Heat stack."))) := by
  refine ⟨?_, ?_, ?_, ?_⟩
  · intro status outs st fouts rest h1 h2 h3
    have hs : (!pyIn FAILED st && st != RESUME_COMPLETE) = false := by
      simp [h3]
    rw [OpenstackProvider.resume_poll, if_pos (by simp [h1, h2]),
      OpenstackProvider.resume_poll_stop st fouts hs rest]
    simp [OpenstackProvider.resume_exit, h3]
  · intro status st fouts rest h1 h2 h3 h4
    have hs : (!pyIn FAILED st && st != DELETE_COMPLETE &&
        st != SUSPEND_COMPLETE) = false := by
      simp [h4]
    rw [OpenstackProvider.suspend_poll, if_pos (by simp [h1, h2, h3]),
      OpenstackProvider.suspend_poll_stop st hs rest]
    simp [OpenstackProvider.suspend_exit, h4]
  · intro status st fouts rest h1 h2 h3
    have hs : (!pyIn FAILED st && st != DELETE_COMPLETE) = false := by
      simp [h3]
    rw [OpenstackProvider.delete_poll, if_pos (by simp [h1, h2]),
      OpenstackProvider.delete_poll_stop st hs rest]
    simp [OpenstackProvider.delete_exit, h3]
  · intro status outs st fouts rest h1 h2 h3
    rw [OpenstackProvider.create_poll, if_pos h1,
      OpenstackProvider.create_poll_stop st fouts h3 rest]
    simp [OpenstackProvider.create_exit, h2]

/-- Claim C9 amended witness: the four loop facts instantiated at the
standard Heat FAILED statuses. -/
theorem os_poll_failed_raises_witness :
    OpenstackProvider.resume_poll RESUME_IN_PROGRESS []
      [HeatFetch.stack "RESUME_FAILED" []] =
      some (1, Except.error (PyError.providerException
        "Failure resuming OpenStack Heat stack"))
    ∧ OpenstackProvider.suspend_poll SUSPEND_IN_PROGRESS
      [HeatFetch.stack "SUSPEND_FAILED" []] =
      some (1, Except.error (PyError.providerException
        "Failure suspending OpenStack Heat stack."))
    ∧ OpenstackProvider.delete_poll DELETE_IN_PROGRESS
      [HeatFetch.stack "DELETE_FAILED" []] =
      some (1, Except.error (PyError.providerException
        "Failure deleting OpenStack Heat stack."))
    ∧ OpenstackProvider.create_poll "CREATE_IN_PROGRESS" []
      [HeatFetch.stack "CREATE_FAILED" []] =
      some (1, Except.error (PyError.providerException
        "Failure creating OpenStack Heat stack.")) :=
  ⟨os_poll_failed_raises.1 RESUME_IN_PROGRESS [] "RESUME_FAILED" [] []
     rfl (by decide) rfl,
   os_poll_failed_raises.2.1 SUSPEND_IN_PROGRESS "SUSPEND_FAILED" [] []
     rfl (by decide) (by decide) rfl,
   os_poll_failed_raises.2.2.1 DELETE_IN_PROGRESS "DELETE_FAILED" [] []
     rfl (by decide) rfl,
   os_poll_failed_raises.2.2.2 "CREATE_IN_PROGRESS" [] "CREATE_FAILED" [] []
     rfl rfl rfl⟩

/-- When every reboot call succeeds, the reboot sequence issues exactly one
HARD reboot per listed server, in the listed order, and raises nothing. -/
theorem OpenstackProvider.reboot_calls_all_ok
    (reboot : String → Except String Unit) (l : List String)
    (h : ∀ s ∈ l, reboot s = Except.ok ()) :
    OpenstackProvider.reboot_calls reboot l =
      (l.map (fun s => (s, "HARD")), none) := by
  induction l with
  | nil => rfl
  | cons s rest ih =>
    rw [OpenstackProvider.reboot_calls, h s (List.mem_cons_self s rest),
      ih (fun x hx => h x (List.mem_cons_of_mem s hx))]
    rfl

/-- Claim C8 (confirmed): when `OpenstackProvider.resume_stack` completes
its poll and the final outputs hold a `reboot_on_resume` list, it issues
one HARD reboot per listed server, in the listed order; when the key is
absent, None, or not a list, no reboot call is made. -/
theorem os_resume_reboot_on_resume :
    ∀ fetches (reboot : String → Except String Unit) n st houts,
      OpenstackProvider.resume_poll RESUME_IN_PROGRESS [] fetches =
        some (n, Except.ok (st, houts)) →
      ((∀ l, (OpenstackProvider.get_stack_outputs houts).lookup
          "reboot_on_resume" = some (PyVal.plist l) →
        (∀ s ∈ l, reboot s = Except.ok ()) →
        OpenstackProvider.resume_stack HeatAction.ok fetches reboot =
          some (n, l.map (fun s => (s, "HARD")),
            Except.ok ⟨st, OpenstackProvider.get_stack_outputs houts⟩))
      ∧ (∀ v, (OpenstackProvider.get_stack_outputs houts).lookup
          "reboot_on_resume" = v →
        (∀ l, v ≠ some (PyVal.plist l)) →
        OpenstackProvider.resume_stack HeatAction.ok fetches reboot =
          some (n, [],
            Except.ok ⟨st, OpenstackProvider.get_stack_outputs houts⟩))) := by
  intro fetches reboot n st houts hpoll
  constructor
  · intro l hl hr
    rw [OpenstackProvider.resume_stack, hpoll]
    simp only [hl, OpenstackProvider.reboot_calls_all_ok reboot l hr]
  · intro v hv hnl
    rw [OpenstackProvider.resume_stack, hpoll]
    match v, hv with
    | none, hv => simp only [hv]
    | some (PyVal.pstr s), hv => simp only [hv]
    | some PyVal.pnone, hv => simp only [hv]
    | some (PyVal.plist l), hv => exact absurd rfl (hnl l)

/-- Claim C8 witness: a resume that completes with
`reboot_on_resume: [srv-1, srv-2]` issues the two HARD reboots in order;
one that completes with a non-list value issues none. -/
theorem os_resume_reboot_on_resume_witness :
    OpenstackProvider.resume_stack HeatAction.ok
      [HeatFetch.stack RESUME_COMPLETE
        [⟨"reboot_on_resume", PyVal.plist ["srv-1", "srv-2"]⟩]]
      (fun _ => Except.ok ()) =
      some (1, [("srv-1", "HARD"), ("srv-2", "HARD")],
        Except.ok ⟨RESUME_COMPLETE,
          [("reboot_on_resume", PyVal.plist ["srv-1", "srv-2"])]⟩)
    ∧ OpenstackProvider.resume_stack HeatAction.ok
      [HeatFetch.stack RESUME_COMPLETE [⟨"public_ip", PyVal.pstr "1.2.3.4"⟩]]
      (fun _ => Except.ok ()) =
      some (1, [],
        Except.ok ⟨RESUME_COMPLETE, [("public_ip", PyVal.pstr "1.2.3.4")]⟩) :=
  ⟨(os_resume_reboot_on_resume
      [HeatFetch.stack RESUME_COMPLETE
        [⟨"reboot_on_resume", PyVal.plist ["srv-1", "srv-2"]⟩]]
      (fun _ => Except.ok ()) 1 RESUME_COMPLETE
      [⟨"reboot_on_resume", PyVal.plist ["srv-1", "srv-2"]⟩] rfl).1
      ["srv-1", "srv-2"] rfl (fun _ _ => rfl),
   (os_resume_reboot_on_resume
      [HeatFetch.stack RESUME_COMPLETE [⟨"public_ip", PyVal.pstr "1.2.3.4"⟩]]
      (fun _ => Except.ok ()) 1 RESUME_COMPLETE
      [⟨"public_ip", PyVal.pstr "1.2.3.4"⟩] rfl).2
      none rfl (fun l h => Option.noConfusion h)⟩
